import Mathlib

/-!
Shallow embedding of `src/server.js` (cloud9pastries backend): an Express
application exposing CRUD handlers over two MongoDB collections (orders,
products), with Cloudinary asset storage and Brevo transactional email.

Modelling conventions:
* MongoDB document ids are modelled as `Nat`, assigned by the store from a
  monotone counter (`Store.nextId`); real ObjectIds are opaque unique tokens.
* A multipart/JSON body field that may be absent is `Option String`
  (`none` = the JavaScript value `undefined`).
* JavaScript string falsiness (`!x` true for `undefined` and `""`) is
  `falsyStr`; `a || b` on such fields is `jsOr`.
* `JSON.parse` is a library call whose internals are not part of the
  repository; the `cart` form field is therefore modelled by how the
  handler's truthiness-guarded `cart ? JSON.parse(cart) : []` experiences
  it (`CartField`): absent; present but the empty string (JS-falsy, so the
  parse is never reached); present, truthy and malformed (`JSON.parse`
  throws); or present, truthy and parsing to a JSON value.
* `Number(x)` on the integer-literal strings exercised by the API is
  `jsNumber`; `none` stands for `NaN` (no claim exercises non-integer input).
* Cloudinary `uploader.destroy` and Brevo `sendTransacEmail` are external
  effects: handlers return the list of destroy calls issued (`destroyed`)
  and their console log lines (`logs`); the outcome of each email send is an
  explicit `Bool` parameter (`true` = the provider call succeeded).
* `res.json(...)` without `res.status(...)` responds with HTTP 200.
* `createdAt` timestamps and list-ordering of the collection listings are
  not modelled; no claim refers to them.
-/

/-- A JSON value, the result of `JSON.parse` on the `cart` form field. -/
inductive Json where
  | null : Json
  | bool : Bool → Json
  | num : Int → Json
  | str : String → Json
  | arr : List Json → Json
  | obj : List (String × Json) → Json

/-- A value supplied for a body field that the handler compares against both
the string `'true'` and the boolean `true` (`available === 'true' || available === true`). -/
inductive FormValue where
  | str : String → FormValue
  | bool : Bool → FormValue
deriving DecidableEq, Repr

/-- The `req.file` object produced by multer-storage-cloudinary: the handler
reads `path || url` for the URL and `filename || public_id` for the handle. -/
structure UploadedFile where
  path : Option String := none
  url : Option String := none
  filename : Option String := none
  public_id : Option String := none
deriving DecidableEq, Repr

/-- JavaScript falsiness of a possibly-absent string field: `!x` is true
exactly for `undefined` and the empty string. -/
def falsyStr : Option String → Bool
  | none => true
  | some s => s = ""

/-- JavaScript `a || b` on possibly-absent string fields. -/
def jsOr (a b : Option String) : Option String :=
  if falsyStr a then b else a

/-- JavaScript `Number(s)` restricted to the inputs the API exercises:
whitespace-trimmed integer literals (optionally negative); the empty string
converts to `0`; anything else is `NaN`, modelled as `none`. -/
def jsNumber (s : String) : Option Int :=
  let t := s.trim
  if t = "" then some 0
  else if t.startsWith "-" then ((t.drop 1).toNat?).map (fun n => -(n : Int))
  else (t.toNat?).map (fun n => (n : Int))

/-- `Number(x)` where the field `x` may be absent (`Number(undefined)` is `NaN`). -/
def jsNumberField : Option String → Option Int
  | none => none
  | some s => jsNumber s

/-- Fragments of a character list up to each comma (helper for
JavaScript `s.split(",")`). -/
def splitCommaAux : List Char → List Char → List String
  | [], acc => [String.mk acc.reverse]
  | c :: cs, acc =>
    if c = ',' then String.mk acc.reverse :: splitCommaAux cs []
    else splitCommaAux cs (c :: acc)

/-- JavaScript `s.split(",")`: the comma-separated fragments in order; the
empty string yields `[""]`. -/
def jsSplitComma (s : String) : List String :=
  splitCommaAux s.data []

/-- Remove leading whitespace characters. -/
def dropWhileWs : List Char → List Char
  | [] => []
  | c :: cs => if c.isWhitespace then dropWhileWs cs else c :: cs

/-- JavaScript `s.trim()` (on the ASCII whitespace exercised here): strip
leading and trailing whitespace. -/
def jsTrim (s : String) : String :=
  String.mk ((dropWhileWs (dropWhileWs s.data).reverse).reverse)

/-- An order document (`OrderSchema` in `src/server.js`). `cart` holds the
parsed JSON blob (`JSON.parse(cart)` when the field is present, `[]`
otherwise); `total` is the `Number(total)` conversion. -/
structure Order where
  id : Nat
  fullName : Option String := none
  email : Option String := none
  phone : Option String := none
  address : Option String := none
  landmark : Option String := none
  city : Option String := none
  pincode : Option String := none
  paymentMethod : Option String := none
  cart : Json := Json.arr []
  total : Option Int := none
  screenshotUrl : Option String := none
  screenshotPublicId : Option String := none
  status : String := "pending"

/-- A product document (`ProductSchema` in `src/server.js`). `options`
holds the trimmed string sequence produced by the handlers. -/
structure Product where
  id : Nat
  name : Option String := none
  description : Option String := none
  price : Option Int := none
  category : Option String := none
  options : List String := []
  imageUrl : Option String := none
  imagePublicId : Option String := none
  available : Bool := true
deriving DecidableEq, Repr

/-- The document store: the two MongoDB collections plus the counter from
which new document ids are assigned. -/
structure Store where
  orders : List Order := []
  products : List Product := []
  nextId : Nat := 0

/-- `Order.findById` -/
def findOrder (s : Store) (oid : Nat) : Option Order :=
  s.orders.find? (fun o => o.id == oid)

/-- `Product.findById` -/
def findProduct (s : Store) (pid : Nat) : Option Product :=
  s.products.find? (fun p => p.id == pid)

/-- Persisting an already-stored product document (`p.save()` /
`findByIdAndUpdate`): the document with the same id is replaced. -/
def saveProduct (s : Store) (p : Product) : Store :=
  { s with products := s.products.map (fun q => if q.id == p.id then p else q) }

/-- Store invariant: every stored id was assigned from the counter, so ids
are below `nextId` and a freshly assigned id collides with no document. -/
def Store.fresh (s : Store) : Bool :=
  s.orders.all (fun o => o.id < s.nextId) && s.products.all (fun p => p.id < s.nextId)

/-- The empty store (fresh database). -/
def store0 : Store := {}

/-- The JSON envelope a handler sends, together with the HTTP status code
(`res.json` alone responds 200; `res.status(c).json` responds `c`).
Payload fields not present in a given envelope are `none`. -/
structure ApiResponse where
  status : Nat := 200
  success : Bool
  message : Option String := none
  orderId : Option Nat := none
  order : Option Order := none
  product : Option Product := none
  availableFlag : Option Bool := none

/-- Everything observable about one handler invocation: the HTTP response,
the resulting store, the Cloudinary `uploader.destroy` calls issued (by
public id, in order), and console log lines. -/
structure Outcome where
  resp : ApiResponse
  store : Store
  destroyed : List String := []
  logs : List String := []

/-- `GET /api/orders/:id` -/
def getOrder (s : Store) (oid : Nat) : Outcome :=
  match findOrder s oid with
  | none =>
      { resp := { status := 404, success := false, message := some "Order not found" }, store := s }
  | some o =>
      { resp := { status := 200, success := true, order := some o }, store := s }

/-- `DELETE /api/orders/:id`: remove the document and, when a screenshot
public id is stored (JS truthiness: non-empty), fire one best-effort
Cloudinary destroy. -/
def deleteOrder (s : Store) (oid : Nat) : Outcome :=
  match findOrder s oid with
  | none =>
      { resp := { status := 404, success := false, message := some "Order not found" }, store := s }
  | some o =>
      { resp := { status := 200, success := true, message := some "Order deleted" },
        store := { s with orders := s.orders.filter (fun x => !(x.id == oid)) },
        destroyed := match o.screenshotPublicId with
          | some h => if h = "" then [] else [h]
          | none => [] }

/-- `PUT /api/orders/:id/status`: `findByIdAndUpdate(id, { status })` with no
existence check — the handler answers `{success: true}` whether or not the id
resolves (and an absent `status` field leaves the document unchanged). -/
def updateOrderStatus (s : Store) (oid : Nat) (st : Option String) : Outcome :=
  { resp := { status := 200, success := true },
    store := { s with orders := s.orders.map (fun o =>
      if o.id == oid then
        match st with
        | some v => { o with status := v }
        | none => o
      else o) } }

/-- The `cart` form field of a place-order request, as the handler's
`cart ? JSON.parse(cart) : []` experiences it: absent; present but the
empty string (JS-falsy, so `JSON.parse` is never called); present, truthy
and malformed (`JSON.parse` throws); or present, truthy and parsing to the
JSON value `j`. -/
inductive CartField where
  | absent : CartField
  | emptyStr : CartField
  | malformed : CartField
  | parsed : Json → CartField

/-- The multipart body of `POST /api/place-order`. `cart` is the raw string
field represented by the `CartField` it induces (see the header comment);
`file` is the optional `screenshot` upload. -/
structure PlaceOrderRequest where
  fullName : Option String := none
  email : Option String := none
  phone : Option String := none
  address : Option String := none
  city : Option String := none
  pincode : Option String := none
  paymentMethod : Option String := none
  landmark : Option String := none
  cart : CartField := CartField.absent
  total : Option String := none
  file : Option UploadedFile := none

/-- `cart ? JSON.parse(cart) : []`: the cart value stored in the cases
where the handler does not throw — `[]` for an absent or JS-falsy
(empty-string) field, the parsed value otherwise. -/
def parsedCart : CartField → Json
  | CartField.parsed j => j
  | _ => Json.arr []

/-- True unless the `cart` field is present, truthy and malformed — the one
case in which `JSON.parse` is reached and throws inside the handler's try
block (a falsy empty-string field never reaches the parse). -/
def cartParseOk : CartField → Bool
  | CartField.malformed => false
  | _ => true

/-- A well-formed `cart` field per the API contract: absent, JS-falsy, or
parsing to a JSON sequence. -/
def cartWf : CartField → Bool
  | CartField.absent => true
  | CartField.emptyStr => true
  | CartField.parsed (Json.arr _) => true
  | _ => false

/-- The `orderData` object built by the place-order handler (plus the id and
defaults that `new Order(...)` / `save()` add): every contact field as
submitted, the parsed cart (`[]` when the field is absent), the
`Number(total)` conversion, and the screenshot references when a file was
uploaded. -/
def builtOrder (s : Store) (req : PlaceOrderRequest) : Order :=
  { id := s.nextId,
    fullName := req.fullName, email := req.email, phone := req.phone,
    address := req.address, landmark := req.landmark, city := req.city,
    pincode := req.pincode, paymentMethod := req.paymentMethod,
    cart := parsedCart req.cart,
    total := jsNumberField req.total,
    screenshotUrl := req.file.bind (fun f => jsOr f.path f.url),
    screenshotPublicId := req.file.bind (fun f => jsOr f.filename f.public_id) }

/-- `POST /api/place-order`. `JSON.parse(cart)` is reached only when the
field is present and truthy; if it throws, the outer catch answers 500 and
nothing is saved. Otherwise the order is saved with a fresh id, the two
Brevo sends are each attempted inside their own try/catch (outcome given by
`userEmailOk` / `ownerEmailOk`; failure only logs), and the handler answers
`{success: true, orderId}`. -/
def placeOrder (s : Store) (req : PlaceOrderRequest)
    (userEmailOk ownerEmailOk : Bool) : Outcome :=
  match req.cart with
  | CartField.malformed =>
      { resp := { status := 500, success := false }, store := s,
        logs := ["place-order error"] }
  | _ =>
      { resp := { status := 200, success := true, orderId := some s.nextId },
        store := { s with orders := s.orders ++ [builtOrder s req], nextId := s.nextId + 1 },
        logs := [if userEmailOk then "Confirmation mail sent to user." else "User email error",
                 if ownerEmailOk then "Owner notified." else "Owner email error"] }

/-- `GET /api/products/:id` -/
def getProduct (s : Store) (pid : Nat) : Outcome :=
  match findProduct s pid with
  | none =>
      { resp := { status := 404, success := false, message := some "Product not found" }, store := s }
  | some p =>
      { resp := { status := 200, success := true, product := some p }, store := s }

/-- The multipart body of `POST /api/products` / `PUT /api/products/:id`.
`options` is the raw comma-separated string; `available` (update only) may
arrive as a string or a boolean; `file` is the optional `image` upload. -/
structure ProductRequest where
  name : Option String := none
  description : Option String := none
  price : Option String := none
  category : Option String := none
  options : Option String := none
  available : Option FormValue := none
  file : Option UploadedFile := none

/-- `POST /api/products`: reject with 400 when `name` or `price` is falsy;
otherwise build the document (`description || ''`, `category || ''`,
`options` split on commas and trimmed when truthy, `available` defaulting to
true from the schema) and save it under a fresh id. -/
def createProduct (s : Store) (req : ProductRequest) : Outcome :=
  if falsyStr req.name || falsyStr req.price then
    { resp := { status := 400, success := false, message := some "Name & price required" },
      store := s }
  else
    let optionsArray : List String :=
      match req.options with
      | some o => if o = "" then [] else (jsSplitComma o).map jsTrim
      | none => []
    let p : Product :=
      { id := s.nextId,
        name := req.name,
        description := some (if falsyStr req.description then "" else req.description.getD ""),
        price := jsNumberField req.price,
        category := some (if falsyStr req.category then "" else req.category.getD ""),
        options := optionsArray,
        imageUrl := req.file.bind (fun f => jsOr f.path f.url),
        imagePublicId := req.file.bind (fun f => jsOr f.filename f.public_id),
        available := true }
    { resp := { status := 200, success := true, product := some p },
      store := { s with products := s.products ++ [p], nextId := s.nextId + 1 } }

/-- `available === 'true' || available === true` (strict equality: any other
supplied value coerces to `false`). -/
def coerceAvailable : FormValue → Bool
  | FormValue.str s => s = "true"
  | FormValue.bool b => b

/-- The `update` object the product-update handler builds, applied to the
stored document: exactly the supplied fields are replaced (`options`
split on commas and trimmed, `price` through `Number`, `available` through
the strict comparison, image references from the uploaded file). -/
def appliedUpdate (old : Product) (req : ProductRequest) : Product :=
  { old with
    name := match req.name with | some n => some n | none => old.name,
    description := match req.description with | some d => some d | none => old.description,
    price := match req.price with | some pr => jsNumber pr | none => old.price,
    category := match req.category with | some c => some c | none => old.category,
    options := match req.options with
      | some o => (jsSplitComma o).map jsTrim
      | none => old.options,
    available := match req.available with
      | some v => coerceAvailable v
      | none => old.available,
    imageUrl := match req.file with
      | some f => jsOr f.path f.url
      | none => old.imageUrl,
    imagePublicId := match req.file with
      | some f => jsOr f.filename f.public_id
      | none => old.imagePublicId }

/-- `PUT /api/products/:id`: 404 when the id does not resolve; otherwise
apply exactly the supplied fields (`options` split/trimmed, `available`
coerced by strict comparison), and when a new image is uploaded, fire one
best-effort Cloudinary destroy of the old public id (if truthy) and write
the new references. Responds with the updated document (`{new: true}`). -/
def updateProduct (s : Store) (pid : Nat) (req : ProductRequest) : Outcome :=
  match findProduct s pid with
  | none =>
      { resp := { status := 404, success := false, message := some "Product not found" }, store := s }
  | some old =>
      { resp := { status := 200, success := true, product := some (appliedUpdate old req) },
        store := saveProduct s (appliedUpdate old req),
        destroyed := match req.file with
          | some _ =>
              (match old.imagePublicId with
               | some hdl => if hdl = "" then [] else [hdl]
               | none => [])
          | none => [] }

/-- `DELETE /api/products/:id` -/
def deleteProduct (s : Store) (pid : Nat) : Outcome :=
  match findProduct s pid with
  | none =>
      { resp := { status := 404, success := false, message := some "Product not found" }, store := s }
  | some p =>
      { resp := { status := 200, success := true },
        store := { s with products := s.products.filter (fun x => !(x.id == pid)) },
        destroyed := match p.imagePublicId with
          | some h => if h = "" then [] else [h]
          | none => [] }

/-- `PUT /api/products/:id/toggle-hold`: flip `available` and save. On an
unresolvable id it answers `res.json({success: false, message: "Product not
found"})` — HTTP 200, not 404. On success it returns the new flag value. -/
def toggleHold (s : Store) (pid : Nat) : Outcome :=
  match findProduct s pid with
  | none =>
      { resp := { status := 200, success := false, message := some "Product not found" }, store := s }
  | some p =>
      let p2 : Product := { p with available := !p.available }
      { resp := { status := 200, success := true, availableFlag := some p2.available },
        store := saveProduct s p2 }

/-- The JSON body of `POST /api/contact`. -/
structure ContactRequest where
  name : Option String := none
  email : Option String := none
  subject : Option String := none
  message : Option String := none

/-- `POST /api/contact`: 400 when `name`, `email` or `message` is falsy;
otherwise the Brevo send to the owner is awaited inside the handler's main
try block, so a provider failure falls through to the catch and answers 500. -/
def contact (s : Store) (req : ContactRequest) (emailOk : Bool) : Outcome :=
  if falsyStr req.name || falsyStr req.email || falsyStr req.message then
    { resp := { status := 400, success := false, message := some "Missing fields" }, store := s }
  else if emailOk then
    { resp := { status := 200, success := true, message := some "Message sent successfully!" },
      store := s }
  else
    { resp := { status := 500, success := false, message := some "Server error" },
      store := s,
      logs := ["Contact form email error"] }

/-- If `find?` succeeds on the id predicate, the found document carries that id. -/
theorem id_of_find?_product {l : List Product} {pid : Nat} {p : Product}
    (h : l.find? (fun q => q.id == pid) = some p) : p.id = pid := by
  induction l with
  | nil => simp at h
  | cons a l ih =>
    by_cases ha : (a.id == pid) = true
    · rw [List.find?_cons_of_pos (p := fun q => q.id == pid) (a := a) l ha] at h
      cases h
      exact eq_of_beq ha
    · rw [List.find?_cons_of_neg (p := fun q => q.id == pid) (a := a) l ha] at h
      exact ih h

/-- Replacing the document found under an id makes `find?` return the
replacement, provided it carries the same id. -/
theorem find?_replace {l : List Product} {pid : Nat} {p : Product} (hp : p.id = pid)
    {old : Product} (h : l.find? (fun q => q.id == pid) = some old) :
    (l.map (fun q => if q.id == p.id then p else q)).find? (fun q => q.id == pid) = some p := by
  induction l with
  | nil => simp at h
  | cons a l ih =>
    by_cases ha : (a.id == pid) = true
    · have hap : (a.id == p.id) = true := by rw [hp]; exact ha
      have hmap : (a :: l).map (fun q => if q.id == p.id then p else q)
          = p :: l.map (fun q => if q.id == p.id then p else q) := by
        rw [List.map_cons, if_pos hap]
      rw [hmap]
      exact List.find?_cons_of_pos (p := fun q => q.id == pid) (a := p) _
        (by show (p.id == pid) = true; rw [hp]; exact beq_self_eq_true pid)
    · have hap : (a.id == p.id) = false := by
        rw [hp]; exact Bool.not_eq_true _ ▸ ha
      have hmap : (a :: l).map (fun q => if q.id == p.id then p else q)
          = a :: l.map (fun q => if q.id == p.id then p else q) := by
        rw [List.map_cons, if_neg]
        simp [hap]
      rw [hmap, List.find?_cons_of_neg (p := fun q => q.id == pid) (a := a) _ ha]
      rw [List.find?_cons_of_neg (p := fun q => q.id == pid) (a := a) l ha] at h
      exact ih h

/-- Appending a document whose id is fresh for the list makes `find?` on that
id return the appended document. -/
theorem find?_append_fresh {l : List Order} {n : Nat}
    (hall : l.all (fun o => o.id < n) = true) {ord : Order} (hid : ord.id = n) :
    (l ++ [ord]).find? (fun o => o.id == n) = some ord := by
  induction l with
  | nil =>
    rw [List.nil_append]
    exact List.find?_cons_of_pos (p := fun o => o.id == n) (a := ord) _
      (by show (ord.id == n) = true; rw [hid]; exact beq_self_eq_true n)
  | cons a l ih =>
    rw [List.all_cons, Bool.and_eq_true] at hall
    have hlt : a.id < n := of_decide_eq_true hall.1
    have ha : ¬ ((a.id == n) = true) := by
      simp only [beq_iff_eq]
      exact Nat.ne_of_lt hlt
    rw [List.cons_append, List.find?_cons_of_neg (p := fun o => o.id == n) (a := a) _ ha]
    exact ih hall.2

/-- C1 (amended): when an identifier does not resolve, get-order, get-product,
delete-order, delete-product and product-update answer HTTP 404; the
toggle-availability handler instead answers HTTP 200 with `success = false`
and a not-found message, and the order-status update performs no existence
check at all, answering HTTP 200 with `success = true`. -/
theorem notFound_reporting (s : Store) (oid pid : Nat) (st : Option String)
    (req : ProductRequest) (ho : findOrder s oid = none) (hp : findProduct s pid = none) :
    (getOrder s oid).resp.status = 404 ∧ (getOrder s oid).resp.success = false ∧
    (deleteOrder s oid).resp.status = 404 ∧
    (getProduct s pid).resp.status = 404 ∧
    (deleteProduct s pid).resp.status = 404 ∧
    (updateProduct s pid req).resp.status = 404 ∧
    (toggleHold s pid).resp.status = 200 ∧
    (toggleHold s pid).resp.success = false ∧
    (toggleHold s pid).resp.message = some "Product not found" ∧
    (updateOrderStatus s oid st).resp.status = 200 ∧
    (updateOrderStatus s oid st).resp.success = true := by
  simp [getOrder, deleteOrder, getProduct, deleteProduct, updateProduct, toggleHold,
        updateOrderStatus, ho, hp]

/-- Witness for `notFound_reporting` at the empty store. -/
theorem notFound_reporting_witness :
    (findOrder store0 0 = none ∧ findProduct store0 0 = none) ∧
    ((getOrder store0 0).resp.status = 404 ∧ (getOrder store0 0).resp.success = false ∧
     (deleteOrder store0 0).resp.status = 404 ∧
     (getProduct store0 0).resp.status = 404 ∧
     (deleteProduct store0 0).resp.status = 404 ∧
     (updateProduct store0 0 {}).resp.status = 404 ∧
     (toggleHold store0 0).resp.status = 200 ∧
     (toggleHold store0 0).resp.success = false ∧
     (toggleHold store0 0).resp.message = some "Product not found" ∧
     (updateOrderStatus store0 0 (some "done")).resp.status = 200 ∧
     (updateOrderStatus store0 0 (some "done")).resp.success = true) :=
  ⟨⟨rfl, rfl⟩, notFound_reporting store0 0 0 (some "done") {} rfl rfl⟩

/-- C1 counterexample: toggling availability of a product id that does not
resolve answers HTTP 200 (with `success = false`), not 404, and updating the
status of an order id that does not resolve answers HTTP 200 with
`success = true` — so not every listed operation reports HTTP 404. -/
theorem notFound_claim_fails :
    (toggleHold store0 0).resp.status = 200 ∧
    (toggleHold store0 0).resp.status ≠ 404 ∧
    (toggleHold store0 0).resp.success = false ∧
    (updateOrderStatus store0 0 (some "done")).resp.status = 200 ∧
    (updateOrderStatus store0 0 (some "done")).resp.status ≠ 404 ∧
    (updateOrderStatus store0 0 (some "done")).resp.success = true :=
  ⟨rfl, by decide, rfl, rfl, by decide, rfl⟩

/-- C5: a product-creation request missing `name` or missing `price` is
rejected with HTTP 400 and the store is unchanged (no document persisted). -/
theorem createProduct_missing_field (s : Store) (req : ProductRequest)
    (h : req.name = none ∨ req.price = none) :
    (createProduct s req).resp.status = 400 ∧
    (createProduct s req).resp.success = false ∧
    (createProduct s req).store = s := by
  have hf : (falsyStr req.name || falsyStr req.price) = true := by
    rcases h with h | h <;> simp [h, falsyStr]
  simp [createProduct, hf]

/-- Witness for `createProduct_missing_field`: the empty request. -/
theorem createProduct_missing_field_witness :
    (({} : ProductRequest).name = none ∨ ({} : ProductRequest).price = none) ∧
    ((createProduct store0 {}).resp.status = 400 ∧
     (createProduct store0 {}).resp.success = false ∧
     (createProduct store0 {}).store = store0) :=
  ⟨Or.inl rfl, createProduct_missing_field store0 {} (Or.inl rfl)⟩

/-- C7: toggling availability of an existing product flips the flag (the
response carries the new, post-flip value), and toggling twice restores the
original value, both in the responses and in the stored document. -/
theorem toggleHold_involutive (s : Store) (pid : Nat) (p : Product)
    (h : findProduct s pid = some p) :
    (toggleHold s pid).resp.availableFlag = some (!p.available) ∧
    (∃ q, findProduct (toggleHold s pid).store pid = some q ∧ q.available = !p.available) ∧
    (toggleHold (toggleHold s pid).store pid).resp.availableFlag = some p.available ∧
    (∃ r, findProduct (toggleHold (toggleHold s pid).store pid).store pid = some r ∧
      r.available = p.available) := by
  have hid : p.id = pid := id_of_find?_product h
  have ht1 : toggleHold s pid =
      { resp := { status := 200, success := true,
                  availableFlag := some (({ p with available := !p.available } : Product).available) },
        store := saveProduct s { p with available := !p.available } } := by
    simp only [toggleHold, h]
  have h1 : findProduct (saveProduct s { p with available := !p.available }) pid
      = some { p with available := !p.available } :=
    find?_replace (p := { p with available := !p.available }) hid h
  have ht2 : toggleHold (saveProduct s { p with available := !p.available }) pid =
      { resp := { status := 200, success := true,
                  availableFlag := some ((({ p with available := !(!p.available) } : Product)).available) },
        store := saveProduct (saveProduct s { p with available := !p.available })
          { p with available := !(!p.available) } } := by
    simp only [toggleHold, h1]
  have h2 : findProduct
      (saveProduct (saveProduct s { p with available := !p.available })
        { p with available := !(!p.available) }) pid
      = some { p with available := !(!p.available) } :=
    find?_replace (p := { p with available := !(!p.available) }) hid h1
  refine ⟨?_, ⟨{ p with available := !p.available }, ?_, rfl⟩, ?_, ?_⟩
  · rw [ht1]
  · rw [ht1]; exact h1
  · rw [ht1, ht2]
    simp [Bool.not_not]
  · refine ⟨{ p with available := !(!p.available) }, ?_, by simp [Bool.not_not]⟩
    rw [ht1, ht2]
    exact h2

/-- Witness for `toggleHold_involutive`: a one-product store. -/
theorem toggleHold_involutive_witness :
    (findProduct { store0 with products := [{ id := 0, name := some "Cake" }], nextId := 1 } 0
      = some { id := 0, name := some "Cake" }) ∧
    ((toggleHold { store0 with products := [{ id := 0, name := some "Cake" }], nextId := 1 } 0).resp.availableFlag
      = some (!({ id := 0, name := some "Cake" } : Product).available) ∧
     (∃ q, findProduct (toggleHold { store0 with products := [{ id := 0, name := some "Cake" }], nextId := 1 } 0).store 0 = some q ∧
        q.available = !({ id := 0, name := some "Cake" } : Product).available) ∧
     (toggleHold (toggleHold { store0 with products := [{ id := 0, name := some "Cake" }], nextId := 1 } 0).store 0).resp.availableFlag
      = some ({ id := 0, name := some "Cake" } : Product).available ∧
     (∃ r, findProduct (toggleHold (toggleHold { store0 with products := [{ id := 0, name := some "Cake" }], nextId := 1 } 0).store 0).store 0 = some r ∧
        r.available = ({ id := 0, name := some "Cake" } : Product).available)) :=
  ⟨rfl, toggleHold_involutive _ 0 { id := 0, name := some "Cake" } rfl⟩

/-- When `JSON.parse(cart)` does not throw, the place-order handler saves the
built order under a fresh id and answers success, logging the outcome of each
of the two email sends. -/
theorem placeOrder_eq (s : Store) (req : PlaceOrderRequest) (ue oe : Bool)
    (hc : cartParseOk req.cart = true) :
    placeOrder s req ue oe =
      { resp := { status := 200, success := true, orderId := some s.nextId },
        store := { s with orders := s.orders ++ [builtOrder s req], nextId := s.nextId + 1 },
        logs := [if ue then "Confirmation mail sent to user." else "User email error",
                 if oe then "Owner notified." else "Owner email error"] } := by
  cases hq : req.cart with
  | malformed =>
    rw [hq] at hc
    simp [cartParseOk] at hc
  | absent => simp [placeOrder, hq]
  | emptyStr => simp [placeOrder, hq]
  | parsed j => simp [placeOrder, hq]

/-- C2 (amended): the two order emails (confirmation to the customer,
new-order notification to the operator) are each sent inside their own
try/catch, so a provider failure is only logged and leaves the place-order
response and the stored data exactly as in the all-success run; the
contact-form send, by contrast, is the handler's primary operation and its
failure produces HTTP 500 (see the counterexample). -/
theorem placeOrder_email_failure_isolated (s : Store) (req : PlaceOrderRequest)
    (ue oe : Bool) (hc : cartParseOk req.cart = true) :
    (placeOrder s req ue oe).resp = (placeOrder s req true true).resp ∧
    (placeOrder s req ue oe).store = (placeOrder s req true true).store ∧
    (ue = false → "User email error" ∈ (placeOrder s req ue oe).logs) ∧
    (oe = false → "Owner email error" ∈ (placeOrder s req ue oe).logs) := by
  rw [placeOrder_eq s req ue oe hc, placeOrder_eq s req true true hc]
  refine ⟨rfl, rfl, ?_, ?_⟩ <;> (intro h; subst h; simp)

/-- Witness for `placeOrder_email_failure_isolated`: both sends fail on an
order with no cart field. -/
theorem placeOrder_email_failure_isolated_witness :
    cartParseOk ({} : PlaceOrderRequest).cart = true ∧
    ((placeOrder store0 {} false false).resp = (placeOrder store0 {} true true).resp ∧
     (placeOrder store0 {} false false).store = (placeOrder store0 {} true true).store ∧
     (false = false → "User email error" ∈ (placeOrder store0 {} false false).logs) ∧
     (false = false → "Owner email error" ∈ (placeOrder store0 {} false false).logs)) :=
  ⟨rfl, placeOrder_email_failure_isolated store0 {} false false rfl⟩

/-- C2 counterexample: the contact-form notification send is not
fire-and-forget — when the provider fails, the handler answers HTTP 500
instead of the success response, so the claim is false for that send. -/
theorem contact_email_failure_changes_response :
    (contact store0 { name := some "A", email := some "a@b.c", message := some "hi" } false).resp.status = 500 ∧
    (contact store0 { name := some "A", email := some "a@b.c", message := some "hi" } true).resp.status = 200 ∧
    (contact store0 { name := some "A", email := some "a@b.c", message := some "hi" } false).resp ≠
      (contact store0 { name := some "A", email := some "a@b.c", message := some "hi" } true).resp :=
  ⟨rfl, rfl, fun h => absurd (congrArg ApiResponse.status h) (by decide)⟩

/-- C3 (amended): a `cart` field that is present, JS-truthy (non-empty) and
not valid JSON makes `JSON.parse` throw inside the handler's try block, so
the generic catch answers HTTP 500 (server error), not a 400 client error,
and no order document is persisted; a present but empty-string cart,
although not valid JSON either, is JS-falsy, so `cart ? JSON.parse(cart) : []`
never parses it — the handler stores `cart = []`, persists the order and
answers success. -/
theorem placeOrder_malformed_cart (s : Store) (req : PlaceOrderRequest) (ue oe : Bool) :
    (req.cart = CartField.malformed →
      (placeOrder s req ue oe).resp.status = 500 ∧
      (placeOrder s req ue oe).resp.success = false ∧
      (placeOrder s req ue oe).store = s) ∧
    (req.cart = CartField.emptyStr →
      (placeOrder s req ue oe).resp.status = 200 ∧
      (placeOrder s req ue oe).resp.success = true ∧
      (placeOrder s req ue oe).store =
        { s with orders := s.orders ++ [builtOrder s req], nextId := s.nextId + 1 } ∧
      (builtOrder s req).cart = Json.arr []) := by
  constructor
  · intro h
    simp [placeOrder, h]
  · intro h
    refine ⟨?_, ?_, ?_, ?_⟩ <;> simp [placeOrder, builtOrder, parsedCart, h]

/-- Witness for `placeOrder_malformed_cart`: both arms at concrete requests. -/
theorem placeOrder_malformed_cart_witness :
    (({ cart := CartField.malformed } : PlaceOrderRequest).cart = CartField.malformed ∧
     ((placeOrder store0 { cart := CartField.malformed } true true).resp.status = 500 ∧
      (placeOrder store0 { cart := CartField.malformed } true true).resp.success = false ∧
      (placeOrder store0 { cart := CartField.malformed } true true).store = store0)) ∧
    (({ cart := CartField.emptyStr } : PlaceOrderRequest).cart = CartField.emptyStr ∧
     ((placeOrder store0 { cart := CartField.emptyStr } true true).resp.status = 200 ∧
      (placeOrder store0 { cart := CartField.emptyStr } true true).resp.success = true ∧
      (placeOrder store0 { cart := CartField.emptyStr } true true).store =
        { store0 with
            orders := store0.orders ++ [builtOrder store0 { cart := CartField.emptyStr }],
            nextId := store0.nextId + 1 } ∧
      (builtOrder store0 { cart := CartField.emptyStr }).cart = Json.arr [])) :=
  ⟨⟨rfl, (placeOrder_malformed_cart store0 { cart := CartField.malformed } true true).1 rfl⟩,
   ⟨rfl, (placeOrder_malformed_cart store0 { cart := CartField.emptyStr } true true).2 rfl⟩⟩

/-- C3 counterexample: on a present, truthy, malformed cart the handler's
status is 500, not the claimed 400 (though nothing is persisted there); and
on a present empty-string cart — not valid JSON either, but JS-falsy — the
handler answers 200 and the order IS persisted, against the claim's
400-and-nothing-persisted. -/
theorem placeOrder_malformed_cart_not_400 :
    (placeOrder store0 { cart := CartField.malformed } true true).resp.status = 500 ∧
    (placeOrder store0 { cart := CartField.malformed } true true).resp.status ≠ 400 ∧
    (placeOrder store0 { cart := CartField.malformed } true true).store = store0 ∧
    (placeOrder store0 { cart := CartField.emptyStr } true true).resp.status = 200 ∧
    (placeOrder store0 { cart := CartField.emptyStr } true true).resp.status ≠ 400 ∧
    (placeOrder store0 { cart := CartField.emptyStr } true true).store.orders.length = 1 :=
  ⟨rfl, by decide, rfl, rfl, by decide, rfl⟩

/-- A well-formed cart field is one on which `JSON.parse` does not throw. -/
theorem cartParseOk_of_wf {c : CartField} (h : cartWf c = true) :
    cartParseOk c = true := by
  cases c with
  | malformed => simp [cartWf] at h
  | absent => rfl
  | emptyStr => rfl
  | parsed j => rfl

/-- C4: for a valid place-order input (cart absent or parsing to a JSON
sequence) against a store whose ids were store-assigned, the response is a
success carrying the fresh order id, and getting that id back returns a
document whose fields equal the submitted fields, whose cart is structurally
equal to the parsed cart, and whose total is the supplied total (as converted
by `Number`, never recomputed from the cart). -/
theorem placeOrder_roundtrip (s : Store) (req : PlaceOrderRequest) (ue oe : Bool)
    (hfresh : s.fresh = true) (hcart : cartWf req.cart = true) :
    (placeOrder s req ue oe).resp.success = true ∧
    (placeOrder s req ue oe).resp.status = 200 ∧
    ∃ oid, (placeOrder s req ue oe).resp.orderId = some oid ∧
      ∃ doc, (getOrder (placeOrder s req ue oe).store oid).resp.order = some doc ∧
        (getOrder (placeOrder s req ue oe).store oid).resp.status = 200 ∧
        doc.fullName = req.fullName ∧ doc.email = req.email ∧ doc.phone = req.phone ∧
        doc.address = req.address ∧ doc.landmark = req.landmark ∧ doc.city = req.city ∧
        doc.pincode = req.pincode ∧ doc.paymentMethod = req.paymentMethod ∧
        doc.cart = parsedCart req.cart ∧
        doc.total = jsNumberField req.total := by
  have hall : s.orders.all (fun o => o.id < s.nextId) = true := by
    rw [Store.fresh, Bool.and_eq_true] at hfresh
    exact hfresh.1
  rw [placeOrder_eq s req ue oe (cartParseOk_of_wf hcart)]
  have hfind : findOrder { s with orders := s.orders ++ [builtOrder s req], nextId := s.nextId + 1 }
      s.nextId = some (builtOrder s req) :=
    find?_append_fresh hall rfl
  refine ⟨rfl, rfl, s.nextId, rfl, builtOrder s req, ?_, ?_, rfl, rfl, rfl, rfl, rfl,
    rfl, rfl, rfl, rfl, rfl⟩
  · simp [getOrder, hfind]
  · simp [getOrder, hfind]

/-- Witness for `placeOrder_roundtrip`: a concrete order with a one-item cart
against the empty store. -/
theorem placeOrder_roundtrip_witness :
    store0.fresh = true ∧
    cartWf (CartField.parsed (Json.arr [Json.obj [("name", Json.str "Cake"), ("quantity", Json.num 2), ("price", Json.num 60)]])) = true ∧
    ((placeOrder store0
        { fullName := some "Asha", email := some "a@b.c", total := some "120",
          cart := CartField.parsed (Json.arr [Json.obj [("name", Json.str "Cake"), ("quantity", Json.num 2), ("price", Json.num 60)]]) }
        true true).resp.success = true ∧
     (placeOrder store0
        { fullName := some "Asha", email := some "a@b.c", total := some "120",
          cart := CartField.parsed (Json.arr [Json.obj [("name", Json.str "Cake"), ("quantity", Json.num 2), ("price", Json.num 60)]]) }
        true true).resp.status = 200 ∧
     ∃ oid, (placeOrder store0
        { fullName := some "Asha", email := some "a@b.c", total := some "120",
          cart := CartField.parsed (Json.arr [Json.obj [("name", Json.str "Cake"), ("quantity", Json.num 2), ("price", Json.num 60)]]) }
        true true).resp.orderId = some oid ∧
      ∃ doc, (getOrder (placeOrder store0
        { fullName := some "Asha", email := some "a@b.c", total := some "120",
          cart := CartField.parsed (Json.arr [Json.obj [("name", Json.str "Cake"), ("quantity", Json.num 2), ("price", Json.num 60)]]) }
        true true).store oid).resp.order = some doc ∧
        (getOrder (placeOrder store0
          { fullName := some "Asha", email := some "a@b.c", total := some "120",
            cart := CartField.parsed (Json.arr [Json.obj [("name", Json.str "Cake"), ("quantity", Json.num 2), ("price", Json.num 60)]]) }
          true true).store oid).resp.status = 200 ∧
        doc.fullName = some "Asha" ∧ doc.email = some "a@b.c" ∧ doc.phone = none ∧
        doc.address = none ∧ doc.landmark = none ∧ doc.city = none ∧
        doc.pincode = none ∧ doc.paymentMethod = none ∧
        doc.cart = parsedCart (CartField.parsed (Json.arr [Json.obj [("name", Json.str "Cake"), ("quantity", Json.num 2), ("price", Json.num 60)]])) ∧
        doc.total = jsNumberField (some "120")) :=
  ⟨rfl, rfl,
    placeOrder_roundtrip store0
      { fullName := some "Asha", email := some "a@b.c", total := some "120",
        cart := CartField.parsed (Json.arr [Json.obj [("name", Json.str "Cake"), ("quantity", Json.num 2), ("price", Json.num 60)]]) }
      true true rfl rfl⟩

/-- On an existing product, the update handler answers success with the
updated document, saves it in place, and fires the destroy calls dictated by
the uploaded file and the old public id. -/
theorem updateProduct_eq (s : Store) (pid : Nat) (req : ProductRequest) (old : Product)
    (hold : findProduct s pid = some old) :
    updateProduct s pid req =
      { resp := { status := 200, success := true, product := some (appliedUpdate old req) },
        store := saveProduct s (appliedUpdate old req),
        destroyed := match req.file with
          | some _ =>
              (match old.imagePublicId with
               | some hdl => if hdl = "" then [] else [hdl]
               | none => [])
          | none => [] } := by
  simp only [updateProduct, hold]

/-- C6: partial product update is frame-preserving — the updated document
agrees with the prior document on every field the request omits (and it is
what the handler both stores and returns). -/
theorem updateProduct_frame (s : Store) (pid : Nat) (req : ProductRequest) (old : Product)
    (hold : findProduct s pid = some old) :
    ∃ p, (updateProduct s pid req).resp.product = some p ∧
      findProduct (updateProduct s pid req).store pid = some p ∧
      (req.name = none → p.name = old.name) ∧
      (req.description = none → p.description = old.description) ∧
      (req.price = none → p.price = old.price) ∧
      (req.category = none → p.category = old.category) ∧
      (req.options = none → p.options = old.options) ∧
      (req.available = none → p.available = old.available) ∧
      (req.file = none → p.imageUrl = old.imageUrl ∧ p.imagePublicId = old.imagePublicId) := by
  have hid0 : old.id = pid := id_of_find?_product hold
  have hid : (appliedUpdate old req).id = pid := hid0
  rw [updateProduct_eq s pid req old hold]
  refine ⟨appliedUpdate old req, rfl, find?_replace hid hold, ?_, ?_, ?_, ?_, ?_, ?_, ?_⟩ <;>
    (intro h; simp [appliedUpdate, h])

/-- Witness for `updateProduct_frame`: update only the price of a stored
product (name and category are among the omitted, hence unchanged, fields). -/
theorem updateProduct_frame_witness :
    (findProduct { store0 with products := [{ id := 0, name := some "Cake", category := some "pastry", price := some 100 }], nextId := 1 } 0
      = some { id := 0, name := some "Cake", category := some "pastry", price := some 100 }) ∧
    (∃ p, (updateProduct { store0 with products := [{ id := 0, name := some "Cake", category := some "pastry", price := some 100 }], nextId := 1 } 0 { price := some "150" }).resp.product = some p ∧
      findProduct (updateProduct { store0 with products := [{ id := 0, name := some "Cake", category := some "pastry", price := some 100 }], nextId := 1 } 0 { price := some "150" }).store 0 = some p ∧
      (({ price := some "150" } : ProductRequest).name = none → p.name = ({ id := 0, name := some "Cake", category := some "pastry", price := some 100 } : Product).name) ∧
      (({ price := some "150" } : ProductRequest).description = none → p.description = ({ id := 0, name := some "Cake", category := some "pastry", price := some 100 } : Product).description) ∧
      (({ price := some "150" } : ProductRequest).price = none → p.price = ({ id := 0, name := some "Cake", category := some "pastry", price := some 100 } : Product).price) ∧
      (({ price := some "150" } : ProductRequest).category = none → p.category = ({ id := 0, name := some "Cake", category := some "pastry", price := some 100 } : Product).category) ∧
      (({ price := some "150" } : ProductRequest).options = none → p.options = ({ id := 0, name := some "Cake", category := some "pastry", price := some 100 } : Product).options) ∧
      (({ price := some "150" } : ProductRequest).available = none → p.available = ({ id := 0, name := some "Cake", category := some "pastry", price := some 100 } : Product).available) ∧
      (({ price := some "150" } : ProductRequest).file = none → p.imageUrl = ({ id := 0, name := some "Cake", category := some "pastry", price := some 100 } : Product).imageUrl ∧ p.imagePublicId = ({ id := 0, name := some "Cake", category := some "pastry", price := some 100 } : Product).imagePublicId)) :=
  ⟨rfl, updateProduct_frame _ 0 { price := some "150" }
    { id := 0, name := some "Cake", category := some "pastry", price := some 100 } rfl⟩

/-- C9: supplying a new image on update of a product that has a stored image
handle issues exactly one Cloudinary destroy call, with the previous handle
as its argument, and the new image references are written to the document. -/
theorem updateProduct_image_replace (s : Store) (pid : Nat) (req : ProductRequest)
    (old : Product) (f : UploadedFile) (hdl : String)
    (hold : findProduct s pid = some old) (hfile : req.file = some f)
    (hpub : old.imagePublicId = some hdl) (hne : ¬ hdl = "") :
    (updateProduct s pid req).destroyed = [hdl] ∧
    ∃ p, (updateProduct s pid req).resp.product = some p ∧
      findProduct (updateProduct s pid req).store pid = some p ∧
      p.imageUrl = jsOr f.path f.url ∧
      p.imagePublicId = jsOr f.filename f.public_id := by
  have hid0 : old.id = pid := id_of_find?_product hold
  have hid : (appliedUpdate old req).id = pid := hid0
  rw [updateProduct_eq s pid req old hold]
  refine ⟨by simp [hfile, hpub, hne], appliedUpdate old req, rfl, find?_replace hid hold,
    ?_, ?_⟩ <;> simp [appliedUpdate, hfile]

/-- Witness for `updateProduct_image_replace`: replace the image of a product
whose stored handle is `"img_old"`. -/
theorem updateProduct_image_replace_witness :
    (findProduct { store0 with products := [{ id := 0, imagePublicId := some "img_old", imageUrl := some "http://old" }], nextId := 1 } 0
      = some { id := 0, imagePublicId := some "img_old", imageUrl := some "http://old" }) ∧
    (({ file := some { path := some "http://new", filename := some "img_new" } } : ProductRequest).file
      = some { path := some "http://new", filename := some "img_new" }) ∧
    (({ id := 0, imagePublicId := some "img_old", imageUrl := some "http://old" } : Product).imagePublicId = some "img_old") ∧
    (¬ "img_old" = "") ∧
    ((updateProduct { store0 with products := [{ id := 0, imagePublicId := some "img_old", imageUrl := some "http://old" }], nextId := 1 } 0
        { file := some { path := some "http://new", filename := some "img_new" } }).destroyed = ["img_old"] ∧
     ∃ p, (updateProduct { store0 with products := [{ id := 0, imagePublicId := some "img_old", imageUrl := some "http://old" }], nextId := 1 } 0
        { file := some { path := some "http://new", filename := some "img_new" } }).resp.product = some p ∧
      findProduct (updateProduct { store0 with products := [{ id := 0, imagePublicId := some "img_old", imageUrl := some "http://old" }], nextId := 1 } 0
        { file := some { path := some "http://new", filename := some "img_new" } }).store 0 = some p ∧
      p.imageUrl = jsOr (some "http://new") none ∧
      p.imagePublicId = jsOr (some "img_new") none) :=
  ⟨rfl, rfl, rfl, by decide,
    updateProduct_image_replace _ 0 { file := some { path := some "http://new", filename := some "img_new" } }
      { id := 0, imagePublicId := some "img_old", imageUrl := some "http://old" }
      { path := some "http://new", filename := some "img_new" } "img_old" rfl rfl rfl (by decide)⟩

/-- C10: on update, a supplied `available` value is stored as `true` exactly
when it is the string `'true'` or the boolean `true`; any other supplied
value stores `false`. -/
theorem updateProduct_available_strict (s : Store) (pid : Nat) (req : ProductRequest)
    (old : Product) (v : FormValue)
    (hold : findProduct s pid = some old) (hav : req.available = some v) :
    ∃ p, (updateProduct s pid req).resp.product = some p ∧
      findProduct (updateProduct s pid req).store pid = some p ∧
      (p.available = true ↔ (v = FormValue.str "true" ∨ v = FormValue.bool true)) := by
  have hid0 : old.id = pid := id_of_find?_product hold
  have hid : (appliedUpdate old req).id = pid := hid0
  rw [updateProduct_eq s pid req old hold]
  refine ⟨appliedUpdate old req, rfl, find?_replace hid hold, ?_⟩
  simp only [appliedUpdate, hav]
  rcases v with s2 | b
  · simp [coerceAvailable]
  · rcases b <;> simp [coerceAvailable]

/-- Witness for `updateProduct_available_strict`: the supplied string
`'True'` (capitalised) is not the exact string `'true'`, so it stores
`false`. -/
theorem updateProduct_available_strict_witness :
    (findProduct { store0 with products := [{ id := 0, available := true }], nextId := 1 } 0
      = some { id := 0, available := true }) ∧
    (({ available := some (FormValue.str "True") } : ProductRequest).available
      = some (FormValue.str "True")) ∧
    (∃ p, (updateProduct { store0 with products := [{ id := 0, available := true }], nextId := 1 } 0
        { available := some (FormValue.str "True") }).resp.product = some p ∧
      findProduct (updateProduct { store0 with products := [{ id := 0, available := true }], nextId := 1 } 0
        { available := some (FormValue.str "True") }).store 0 = some p ∧
      (p.available = true ↔ (FormValue.str "True" = FormValue.str "true" ∨ FormValue.str "True" = FormValue.bool true))) :=
  ⟨rfl, rfl,
    updateProduct_available_strict _ 0 { available := some (FormValue.str "True") }
      { id := 0, available := true } (FormValue.str "True") rfl rfl⟩

/-- C8: creating a product with truthy `name` and `price` and a non-empty
comma-separated `options` string stores an options sequence obtained by
splitting the string on commas and trimming each element, with the
`available` flag defaulting to true. -/
theorem createProduct_options_split (s : Store) (req : ProductRequest) (optStr : String)
    (hname : falsyStr req.name = false) (hprice : falsyStr req.price = false)
    (hopt : req.options = some optStr) (hne : ¬ optStr = "") :
    ∃ p, (createProduct s req).resp.product = some p ∧
      p.options = (jsSplitComma optStr).map jsTrim ∧
      p.available = true := by
  have hf : (falsyStr req.name || falsyStr req.price) = false := by
    rw [hname, hprice]
    rfl
  simp only [createProduct, hf, Bool.false_eq_true, if_false, hopt, hne, ite_false]
  exact ⟨_, rfl, rfl, rfl⟩

/-- Witness for `createProduct_options_split`: the claim's example request
(name "Croissant", price "120", options "butter, chocolate") yields
`options = ["butter", "chocolate"]` and `available = true`. -/
theorem createProduct_options_split_witness :
    falsyStr (({ name := some "Croissant", price := some "120", options := some "butter, chocolate" } : ProductRequest)).name = false ∧
    falsyStr (({ name := some "Croissant", price := some "120", options := some "butter, chocolate" } : ProductRequest)).price = false ∧
    (({ name := some "Croissant", price := some "120", options := some "butter, chocolate" } : ProductRequest)).options = some "butter, chocolate" ∧
    (¬ "butter, chocolate" = "") ∧
    (∃ p, (createProduct store0 { name := some "Croissant", price := some "120", options := some "butter, chocolate" }).resp.product = some p ∧
      p.options = ((jsSplitComma "butter, chocolate").map jsTrim) ∧
      p.available = true) ∧
    (jsSplitComma "butter, chocolate").map jsTrim = ["butter", "chocolate"] :=
  ⟨rfl, rfl, rfl, by decide,
    createProduct_options_split store0
      { name := some "Croissant", price := some "120", options := some "butter, chocolate" }
      "butter, chocolate" rfl rfl rfl (by decide),
    by decide⟩
